import Mathlib

/-!
Verification of the transcode / size-fit / upload pipeline of
src/render_bot.py (telegram-gif-bot).

The Python program is embedded shallowly:

* Scratch files are named abstractly by the inductive type ScratchFile.
  The constructors correspond to the concrete names built by the code from
  an input file named by the bot as gif_<file_id>.mp4 (or doc_<file_id>):
  input = the downloaded temp file EXPORT_DIR/file_name,
  gif = input_path.with_suffix chgd to .gif,
  palette = palette_<stem>.png, medium = medium_<gif name>,
  medPalette = med_palette_<stem>.png.  Those five concrete names are
  pairwise distinct for the names the bot generates, which the distinct
  constructors reflect.
* The scratch directory (EXPORT_DIR = temp_gifs) is a map from scratch
  file names to Option Nat: none means the file does not exist, some n
  means it exists and holds n bytes.
* External behaviour (ffmpeg subprocess invocations, HTTP POSTs, telegram
  API calls) is an environment record: each subprocess invocation either
  raises an OSError-like exception or runs and possibly writes its output
  file; each HTTP POST either raises (timeout / connection error) or
  yields a status code and a text body; each awaited telegram call either
  raises or succeeds.  The Lean functions compute exactly what the Python
  control flow does under that environment, including the try/except
  structure (an except-branch is an explicit catch in the model) and
  Python truthiness of the Optional[str] upload results.
* Byte sizes are Nat.  The Python test size_mb > 8 divides the byte count
  by 1024 twice in float arithmetic; since both divisors are powers of two
  and sizes are far below 2^53 this is exact, so the test is embedded as
  the exact comparison 8 * 1024 * 1024 < size.
-/

/-- Python str.strip with no arguments: remove leading and trailing
whitespace characters.  (String.trim is not used because the embedding
must reduce inside the kernel; this definition is structurally recursive
over the character list.) -/
def pyStrip (s : String) : String :=
  String.mk (((s.data.dropWhile Char.isWhitespace).reverse.dropWhile Char.isWhitespace).reverse)

/-- The five scratch-file names created in EXPORT_DIR by one job. -/
inductive ScratchFile
  | input
  | gif
  | palette
  | medium
  | medPalette
  deriving DecidableEq, Repr

/-- The scratch directory: which files exist and their byte sizes. -/
abbrev FS := ScratchFile → Option Nat

/-- Writing a file of n bytes (ffmpeg -y output, or the telegram download). -/
def FS.set (fs : FS) (p : ScratchFile) (n : Nat) : FS :=
  fun q => if q = p then some n else fs q

/-- Path.unlink (with or without missing_ok, the file simply stops existing). -/
def FS.remove (fs : FS) (p : ScratchFile) : FS :=
  fun q => if q = p then none else fs q

/-- MAX_SIZE_MB = 8  (render_bot.py line 43). -/
def MAX_SIZE_MB : Nat := 8

/-- The test at line 120: size_mb > 8 where size_mb = st_size/1024/1024 in
float arithmetic; exact because the divisors are powers of two. -/
def overEightMB (size : Nat) : Bool := 8 * 1024 * 1024 < size

/-- One subprocess.run(cmd, capture_output=True) invocation of ffmpeg:
either the invocation itself raises (OSError and the like), or it runs
and either writes its single output file (some size) or produces no
output (nonzero exit, none).  A nonzero exit does not raise because
check=True is not passed. -/
structure SubprocessBehavior where
  raises : Bool
  output : Option Nat
  deriving DecidableEq, Repr

/-- The four ffmpeg invocations convert_to_gif can make, in order. -/
inductive CmdTag
  | palettegen1
  | encode1
  | palettegen2
  | encode2
  deriving DecidableEq, Repr

/-- Environment of one convert_to_gif call: ffmpeg availability
(check_ffmpeg) and the behaviour of each potential ffmpeg invocation. -/
structure ConvEnv where
  ffmpegAvailable : Bool
  paletteGen : SubprocessBehavior
  gifEncode : SubprocessBehavior
  medPaletteGen : SubprocessBehavior
  medEncode : SubprocessBehavior
  deriving DecidableEq, Repr

/-- Result of convert_to_gif: whether the try-body escaped with an
exception (before being caught), the returned path, the scratch
directory afterwards, and the trace of ffmpeg invocations attempted. -/
structure ConvOut where
  raised : Bool
  result : ScratchFile
  fs : FS
  trace : List CmdTag

/-- Effect of one non-raising subprocess invocation on the scratch
directory: the output file appears with its size, or nothing happens. -/
def applyRun (b : SubprocessBehavior) (target : ScratchFile) (fs : FS) : FS :=
  match b.output with
  | some n => FS.set fs target n
  | none => fs

/-- The try-body of convert_to_gif (render_bot.py lines 92 to 149),
lines 150 onward excepted.  Straight-line embedding: palette_cmd,
gif_cmd, palette unlink, existence and size check of gif_path, optional
second pass (med palette, medium encode, med palette unlink, swap of
gif_path to medium_path with unlink of the first gif), return.
The fall-through when gif_path does not exist reaches the final
return input_path at line 154; it is not an exception, so raised=false
and the result is the input path. -/
def convertBody (env : ConvEnv) (fs : FS) : ConvOut :=
  if env.paletteGen.raises then ⟨true, .input, fs, [.palettegen1]⟩ else
  let fs1 := applyRun env.paletteGen .palette fs
  if env.gifEncode.raises then ⟨true, .input, fs1, [.palettegen1, .encode1]⟩ else
  let fs2 := applyRun env.gifEncode .gif fs1
  let fs3 := FS.remove fs2 .palette
  match fs3 .gif with
  | some size =>
    if overEightMB size then
      if env.medPaletteGen.raises then
        ⟨true, .input, fs3, [.palettegen1, .encode1, .palettegen2]⟩
      else
        let fs4 := applyRun env.medPaletteGen .medPalette fs3
        if env.medEncode.raises then
          ⟨true, .input, fs4, [.palettegen1, .encode1, .palettegen2, .encode2]⟩
        else
          let fs5 := applyRun env.medEncode .medium fs4
          let fs6 := FS.remove fs5 .medPalette
          match fs6 .medium with
          | some _ =>
            ⟨false, .medium, FS.remove fs6 .gif, [.palettegen1, .encode1, .palettegen2, .encode2]⟩
          | none =>
            ⟨false, .gif, fs6, [.palettegen1, .encode1, .palettegen2, .encode2]⟩
    else
      ⟨false, .gif, fs3, [.palettegen1, .encode1]⟩
  | none => ⟨false, .input, fs3, [.palettegen1, .encode1]⟩

/-- convert_to_gif (render_bot.py lines 82 to 154): if ffmpeg is absent,
return the input path with the filesystem untouched; otherwise run the
try-body and, if it raised, catch the exception and return the input
path (the filesystem keeps whatever the body did before raising). -/
def convert_to_gif (env : ConvEnv) (fs : FS) : ConvOut :=
  if env.ffmpegAvailable = false then ⟨false, .input, fs, []⟩
  else
    let o := convertBody env fs
    if o.raised then ⟨true, .input, o.fs, o.trace⟩ else o

/-- An HTTP response obtained by requests.post. -/
structure HttpResponse where
  status : Nat
  text : String
  deriving DecidableEq, Repr

/-- Outcome of one requests.post call: a response, or a raised exception
(timeout, connection error). -/
inductive PostOutcome
  | response (r : HttpResponse)
  | raised
  deriving DecidableEq, Repr

/-- upload_to_catbox (lines 49 to 66): the try-body posts the file; a
raised exception is caught and the function returns None; a response
with status 200 returns response.text.strip(); any other status falls
through to return None. -/
def upload_to_catbox (o : PostOutcome) : Option String :=
  match o with
  | .raised => none
  | .response r => if r.status = 200 then some (pyStrip r.text) else none

/-- upload_to_0x0 (lines 68 to 80): identical logic against the second
endpoint. -/
def upload_to_0x0 (o : PostOutcome) : Option String :=
  match o with
  | .raised => none
  | .response r => if r.status = 200 then some (pyStrip r.text) else none

/-- Python truthiness of the Optional[str] the two uploaders return:
None and the empty string are falsy, every other string is truthy. -/
def pyTruthy : Option String → Bool
  | none => false
  | some s => s != ""

/-- The two hosting endpoints, in the order handle_gif tries them. -/
inductive Endpoint
  | catbox
  | zeroX0
  deriving DecidableEq, Repr

/-- Result of the upload step: the final value of download_url and the
list of endpoints actually attempted. -/
structure UploadOut where
  url : Option String
  attempts : List Endpoint
  deriving DecidableEq, Repr

/-- The upload step of handle_gif (lines 201 to 203):
download_url = upload_to_catbox(...); if not download_url:
download_url = upload_to_0x0(...). -/
def uploadStep (p s : PostOutcome) : UploadOut :=
  let u := upload_to_catbox p
  if pyTruthy u then ⟨u, [.catbox]⟩
  else ⟨upload_to_0x0 s, [.catbox, .zeroX0]⟩

/-- Kind of incoming telegram message (lines 169 to 177). -/
inductive MsgKind
  | animation
  | document
  | other
  deriving DecidableEq, Repr

/-- Messages the bot shows the requester; only the terminal one per run
is recorded.  errorReply is the except-branch reply at line 229. -/
inductive BotMessage
  | processing
  | askGif
  | success (url : String)
  | allDown
  | errorReply
  deriving DecidableEq, Repr

/-- Which awaited telegram calls inside the try-body of handle_gif raise.
Each field corresponds to one call site, in program order: the initial
reply (line 166), the ask-for-a-gif edit (line 176), get_file plus
download_to_drive (lines 180 to 182), the converting edit (line 187),
the uploading edit (line 198), the final status edit (line 210 or 222),
and the copyable-link reply (line 219). -/
structure TgBehavior where
  replyProcessingRaises : Bool
  editAskGifRaises : Bool
  downloadRaises : Bool
  editConvertingRaises : Bool
  editUploadingRaises : Bool
  editFinalRaises : Bool
  replyLinkRaises : Bool
  deriving DecidableEq, Repr

/-- Environment of one handle_gif call. -/
structure HandleEnv where
  kind : MsgKind
  downloadSize : Nat
  conv : ConvEnv
  primary : PostOutcome
  secondary : PostOutcome
  tg : TgBehavior
  deriving DecidableEq, Repr

/-- Outcome of one handle_gif run: scratch directory afterwards, the
terminal user-visible message, and the upload attempts made. -/
structure JobOut where
  fs : FS
  finalMsg : BotMessage
  attempts : List Endpoint

/-- handle_gif (render_bot.py lines 163 to 229).  The whole body is one
try with a broad except that replies with an error message; any raising
await jumps there, skipping every later statement (in particular the
cleanup unlink at line 225, which is not in a finally block).  Otherwise:
download the file to the scratch dir, convert, unlink the temp file if
conversion returned a different path, run the upload step, then either
edit in the success message and send the link, or edit in the
all-services-down message, and finally unlink the returned artifact. -/
def handle_gif (env : HandleEnv) (fs0 : FS) : JobOut :=
  if env.tg.replyProcessingRaises then ⟨fs0, .errorReply, []⟩ else
  if env.kind = .other then
    (if env.tg.editAskGifRaises then ⟨fs0, .errorReply, []⟩ else ⟨fs0, .askGif, []⟩)
  else
  if env.tg.downloadRaises then ⟨fs0, .errorReply, []⟩ else
  let fs1 := FS.set fs0 .input env.downloadSize
  if env.tg.editConvertingRaises then ⟨fs1, .errorReply, []⟩ else
  let c := convert_to_gif env.conv fs1
  let fs2 := if c.result ≠ ScratchFile.input then FS.remove c.fs .input else c.fs
  if env.tg.editUploadingRaises then ⟨fs2, .errorReply, []⟩ else
  let u := uploadStep env.primary env.secondary
  if pyTruthy u.url then
    if env.tg.editFinalRaises then ⟨fs2, .errorReply, u.attempts⟩ else
    if env.tg.replyLinkRaises then ⟨fs2, .errorReply, u.attempts⟩ else
    ⟨FS.remove fs2 c.result, .success (u.url.getD ""), u.attempts⟩
  else
    if env.tg.editFinalRaises then ⟨fs2, .errorReply, u.attempts⟩ else
    ⟨FS.remove fs2 c.result, .allDown, u.attempts⟩

/-- What main starts when it does not return early. -/
inductive MainAction
  | startHealthThread
  | startBot
  deriving DecidableEq, Repr

/-- The function main (lines 231 to 249), renamed because Lean reserves
the name: BOT_TOKEN is os.getenv, so None when the variable is absent;
if not BOT_TOKEN (None or empty string) print an error and return before
starting anything; otherwise start the flask health-check thread and
then the bot application. -/
def mainFn (botToken : Option String) : List MainAction :=
  if pyTruthy botToken = false then []
  else [.startHealthThread, .startBot]

/-! Concrete environments used to evaluate the model at specific inputs. -/

/-- An empty scratch directory. -/
def fsEmpty : FS := fun _ => none

/-- A scratch directory holding only a 20 MB downloaded input. -/
def fsWithInput : FS :=
  fun q => if q = ScratchFile.input then some 20971520 else none

/-- All telegram calls succeed. -/
def tgOk : TgBehavior := ⟨false, false, false, false, false, false, false⟩

/-- Only the copyable-link reply (line 219) raises. -/
def tgLinkRaise : TgBehavior := ⟨false, false, false, false, false, false, true⟩

/-- ffmpeg present; first pass yields a 10 MB gif, second pass a 9 MB
one: both over the 8 MB budget. -/
def convEnvExhaust : ConvEnv :=
  ⟨true, ⟨false, some 100⟩, ⟨false, some 10485760⟩, ⟨false, some 50⟩, ⟨false, some 9437184⟩⟩

/-- ffmpeg present; the first pass already yields a 6 MB gif. -/
def convEnvFirstFits : ConvEnv :=
  ⟨true, ⟨false, some 100⟩, ⟨false, some 6291456⟩, ⟨false, some 50⟩, ⟨false, some 10⟩⟩

/-- ffmpeg present; the first pass yields exactly 8 MB (8388608 bytes). -/
def convEnvExactly8MB : ConvEnv :=
  ⟨true, ⟨false, some 100⟩, ⟨false, some 8388608⟩, ⟨false, some 50⟩, ⟨false, some 10⟩⟩

/-- ffmpeg absent. -/
def convEnvNoFfmpeg : ConvEnv :=
  ⟨false, ⟨false, none⟩, ⟨false, none⟩, ⟨false, none⟩, ⟨false, none⟩⟩

/-- ffmpeg present; palettegen writes its 900-byte palette, then the
first-pass encode invocation raises. -/
def convEnvRaise : ConvEnv :=
  ⟨true, ⟨false, some 900⟩, ⟨true, none⟩, ⟨false, none⟩, ⟨false, none⟩⟩

/-- A job whose primary upload gets a 503 and whose secondary times out. -/
def handleEnvAllDown : HandleEnv :=
  ⟨.animation, 20971520, convEnvExhaust, .response ⟨503, "err"⟩, .raised, tgOk⟩

/-- A job where the first-pass encode raises (leaving the palette file
behind) and the upload then succeeds. -/
def handleEnvPaletteLeak : HandleEnv :=
  ⟨.animation, 5000000, convEnvRaise, .response ⟨200, "u"⟩, .raised, tgOk⟩

/-- A job where conversion and upload succeed but the final link reply
raises, skipping the cleanup unlink at line 225. -/
def handleEnvGifLeak : HandleEnv :=
  ⟨.animation, 5000000,
   ⟨true, ⟨false, some 900⟩, ⟨false, some 1000⟩, ⟨false, none⟩, ⟨false, none⟩⟩,
   .response ⟨200, "u"⟩, .raised, tgLinkRaise⟩

/-! Helper lemmas about the scratch-directory primitives. -/

theorem FS.set_same (fs : FS) (p : ScratchFile) (n : Nat) : FS.set fs p n p = some n := by
  simp [FS.set]

theorem FS.set_ne (fs : FS) (p q : ScratchFile) (n : Nat) (h : q ≠ p) :
    FS.set fs p n q = fs q := by
  simp [FS.set, h]

theorem FS.remove_same (fs : FS) (p : ScratchFile) : FS.remove fs p p = none := by
  simp [FS.remove]

theorem FS.remove_ne (fs : FS) (p q : ScratchFile) (h : q ≠ p) :
    FS.remove fs p q = fs q := by
  simp [FS.remove, h]

theorem applyRun_ne (b : SubprocessBehavior) (t : ScratchFile) (fs : FS) (q : ScratchFile)
    (h : q ≠ t) : applyRun b t fs q = fs q := by
  unfold applyRun
  rcases hb : b.output with _ | n
  · simp [hb]
  · simp [hb, FS.set, h]

/-! Theorems settling the claims. -/

/-- Claim C6: if the external conversion tool (ffmpeg) is unavailable,
convert_to_gif returns the original input path with the scratch
directory untouched, hence the very same file with the same byte size,
not an empty or corrupt one. -/
theorem convert_passthrough_without_ffmpeg (env : ConvEnv) (fs : FS)
    (h : env.ffmpegAvailable = false) :
    (convert_to_gif env fs).result = ScratchFile.input ∧
    (convert_to_gif env fs).fs = fs ∧
    (convert_to_gif env fs).trace = [] := by
  simp [convert_to_gif, h]

/-- Witness for claim C6 at a concrete environment. -/
theorem convert_passthrough_without_ffmpeg_witness :
    (convert_to_gif convEnvNoFfmpeg fsWithInput).result = ScratchFile.input ∧
    (convert_to_gif convEnvNoFfmpeg fsWithInput).fs = fsWithInput ∧
    (convert_to_gif convEnvNoFfmpeg fsWithInput).trace = [] :=
  convert_passthrough_without_ffmpeg convEnvNoFfmpeg fsWithInput rfl

/-- Claim C8: with no BOT_TOKEN in the environment, the function main
returns before starting anything: neither the health-check thread nor
the bot application is started. -/
theorem main_requires_token :
    mainFn none = [] ∧
    MainAction.startHealthThread ∉ mainFn none ∧
    MainAction.startBot ∉ mainFn none := by
  decide

/-- Claim C2: if the primary endpoint fails in any of the ways the code
can observe (a raised timeout or connection error, a non-200 status, or
a body that strips to the empty string) and the secondary returns a
non-empty URL, the upload step of handle_gif ends with the secondary's
URL; the primary's failure is swallowed inside upload_to_catbox and is
never raised to the caller (the step is a total function). -/
theorem upload_fallback_returns_secondary (p s : PostOutcome) (u : String)
    (hp : p = PostOutcome.raised ∨
          (∃ r, p = PostOutcome.response r ∧ r.status ≠ 200) ∨
          (∃ r, p = PostOutcome.response r ∧ r.status = 200 ∧ pyStrip r.text = ""))
    (hs : upload_to_0x0 s = some u) (hu : u ≠ "") :
    (uploadStep p s).url = some u ∧ pyTruthy (uploadStep p s).url = true := by
  have hfail : pyTruthy (upload_to_catbox p) = false := by
    rcases hp with h | ⟨r, hr, hst⟩ | ⟨r, hr, hst, hstrip⟩
    · subst h; rfl
    · subst hr; simp [upload_to_catbox, hst, pyTruthy]
    · subst hr; simp [upload_to_catbox, hst, pyTruthy, hstrip]
  have hstep : uploadStep p s = ⟨upload_to_0x0 s, [Endpoint.catbox, Endpoint.zeroX0]⟩ := by
    simp [uploadStep, hfail]
  rw [hstep, hs]
  exact ⟨rfl, by simp [pyTruthy, hu]⟩

/-- Witness for claim C2: the primary times out, the secondary answers
200 with a body that strips to a URL. -/
theorem upload_fallback_returns_secondary_witness :
    (uploadStep PostOutcome.raised (PostOutcome.response ⟨200, " v "⟩)).url = some "v" ∧
    pyTruthy (uploadStep PostOutcome.raised (PostOutcome.response ⟨200, " v "⟩)).url = true :=
  upload_fallback_returns_secondary PostOutcome.raised (PostOutcome.response ⟨200, " v "⟩) "v"
    (Or.inl rfl) (by decide) (by decide)

/-- Claim C4, counterexample: the body " " is a non-empty text body and
the status is 200, so the claim calls this attempt a success; but the
code strips the body, returns the empty string, and the empty string is
falsy, so the attempt is treated as a failure and the secondary endpoint
is tried. -/
theorem upload_nonempty_body_claim_false :
    (" " : String) ≠ "" ∧
    upload_to_catbox (PostOutcome.response ⟨200, " "⟩) = some "" ∧
    pyTruthy (upload_to_catbox (PostOutcome.response ⟨200, " "⟩)) = false ∧
    (uploadStep (PostOutcome.response ⟨200, " "⟩) PostOutcome.raised).attempts
      = [Endpoint.catbox, Endpoint.zeroX0] := by
  decide

/-- Claim C4 as amended: an attempt against a single endpoint is treated
as success exactly when the HTTP response has status 200 and a body that
is non-empty after stripping whitespace; the returned URL is then the
stripped body.  A body that strips to the empty string (in particular an
empty body) counts as failure of that endpoint and triggers the
fallback.  The second uploader has identical semantics. -/
theorem upload_success_iff_stripped_nonempty (o s : PostOutcome) :
    (pyTruthy (upload_to_catbox o) = true ↔
      ∃ r, o = PostOutcome.response r ∧ r.status = 200 ∧ pyStrip r.text ≠ "") ∧
    (∀ r, o = PostOutcome.response r → r.status = 200 →
      upload_to_catbox o = some (pyStrip r.text)) ∧
    (pyTruthy (upload_to_catbox o) = false →
      (uploadStep o s).attempts = [Endpoint.catbox, Endpoint.zeroX0]) ∧
    upload_to_0x0 = upload_to_catbox := by
  refine ⟨?_, ?_, ?_, rfl⟩
  · cases o with
    | raised => simp [upload_to_catbox, pyTruthy]
    | response r =>
      by_cases hst : r.status = 200
      · simp [upload_to_catbox, pyTruthy, hst]
      · simp [upload_to_catbox, pyTruthy, hst]
  · intro r hr hst
    subst hr
    simp [upload_to_catbox, hst]
  · intro hfail
    simp [uploadStep, hfail]

/-- Witness for the amended claim C4 at concrete inputs. -/
theorem upload_success_iff_stripped_nonempty_witness :
    (pyTruthy (upload_to_catbox (PostOutcome.response ⟨200, " u "⟩)) = true ↔
      ∃ r, PostOutcome.response ⟨200, " u "⟩ = PostOutcome.response r ∧
        r.status = 200 ∧ pyStrip r.text ≠ "") ∧
    (∀ r, PostOutcome.response ⟨200, " u "⟩ = PostOutcome.response r → r.status = 200 →
      upload_to_catbox (PostOutcome.response ⟨200, " u "⟩) = some (pyStrip r.text)) ∧
    (pyTruthy (upload_to_catbox (PostOutcome.response ⟨200, " u "⟩)) = false →
      (uploadStep (PostOutcome.response ⟨200, " u "⟩) PostOutcome.raised).attempts
        = [Endpoint.catbox, Endpoint.zeroX0]) ∧
    upload_to_0x0 = upload_to_catbox :=
  upload_success_iff_stripped_nonempty (PostOutcome.response ⟨200, " u "⟩) PostOutcome.raised

/-- Claim C1: when the first-pass GIF is over the 8 MB budget and the
last (most aggressive) profile also produces an over-budget artifact,
convert_to_gif returns that last artifact (medium), never the oversized
first-pass GIF, which has been deleted. -/
theorem fit_exhaustion_returns_last_profile (env : ConvEnv) (fs : FS) (n m : Nat)
    (hff : env.ffmpegAvailable = true)
    (hpr : env.paletteGen.raises = false)
    (hgr : env.gifEncode.raises = false)
    (hgo : env.gifEncode.output = some n)
    (hn : 8 * 1024 * 1024 < n)
    (hmpr : env.medPaletteGen.raises = false)
    (hmer : env.medEncode.raises = false)
    (hmo : env.medEncode.output = some m)
    (hm : 8 * 1024 * 1024 < m) :
    (convert_to_gif env fs).result = ScratchFile.medium ∧
    (convert_to_gif env fs).fs ScratchFile.medium = some m ∧
    (convert_to_gif env fs).fs ScratchFile.gif = none := by
  obtain ⟨ff, ⟨pgr, pgo⟩, ⟨ger, geo⟩, ⟨mpgr, mpgo⟩, ⟨mer, meo⟩⟩ := env
  dsimp only at hff hpr hgr hgo hmpr hmer hmo
  subst hff hpr hgr hgo hmpr hmer hmo
  have hovn : overEightMB n = true := by simpa [overEightMB] using hn
  simp [convert_to_gif, convertBody, applyRun, FS.set, FS.remove, hovn]

/-- Witness for claim C1: first pass 10 MB, second pass 9 MB. -/
theorem fit_exhaustion_returns_last_profile_witness :
    (convert_to_gif convEnvExhaust fsEmpty).result = ScratchFile.medium ∧
    (convert_to_gif convEnvExhaust fsEmpty).fs ScratchFile.medium = some 9437184 ∧
    (convert_to_gif convEnvExhaust fsEmpty).fs ScratchFile.gif = none :=
  fit_exhaustion_returns_last_profile convEnvExhaust fsEmpty 10485760 9437184
    rfl rfl rfl rfl (by decide) rfl rfl rfl (by decide)

/-- Claim C3: when the first-pass GIF is at or under the 8 MB budget,
convert_to_gif measures it, returns it immediately with its size, and
attempts no second-pass (lower-quality) ffmpeg invocation: the trace
stops at the first pass and the result does not depend on the behaviour
of the second-pass invocations at all. -/
theorem fit_returns_first_satisfying_profile (env : ConvEnv) (fs : FS) (n : Nat)
    (hff : env.ffmpegAvailable = true)
    (hpr : env.paletteGen.raises = false)
    (hgr : env.gifEncode.raises = false)
    (hgo : env.gifEncode.output = some n)
    (hn : n ≤ 8 * 1024 * 1024) :
    (convert_to_gif env fs).result = ScratchFile.gif ∧
    (convert_to_gif env fs).fs ScratchFile.gif = some n ∧
    (convert_to_gif env fs).trace = [CmdTag.palettegen1, CmdTag.encode1] ∧
    CmdTag.palettegen2 ∉ (convert_to_gif env fs).trace ∧
    CmdTag.encode2 ∉ (convert_to_gif env fs).trace ∧
    (∀ mpg me : SubprocessBehavior,
      convert_to_gif ⟨env.ffmpegAvailable, env.paletteGen, env.gifEncode, mpg, me⟩ fs
        = convert_to_gif env fs) := by
  obtain ⟨ff, ⟨pgr, pgo⟩, ⟨ger, geo⟩, ⟨mpgr, mpgo⟩, ⟨mer, meo⟩⟩ := env
  dsimp only at hff hpr hgr hgo
  subst hff hpr hgr hgo
  have hovn : overEightMB n = false := by
    simp only [overEightMB, decide_eq_false_iff_not, not_lt]
    exact hn
  simp [convert_to_gif, convertBody, applyRun, FS.set, FS.remove, hovn]

/-- Witness for claim C3: the first pass yields 6 MB. -/
theorem fit_returns_first_satisfying_profile_witness :
    (convert_to_gif convEnvFirstFits fsEmpty).result = ScratchFile.gif ∧
    (convert_to_gif convEnvFirstFits fsEmpty).fs ScratchFile.gif = some 6291456 ∧
    (convert_to_gif convEnvFirstFits fsEmpty).trace = [CmdTag.palettegen1, CmdTag.encode1] ∧
    CmdTag.palettegen2 ∉ (convert_to_gif convEnvFirstFits fsEmpty).trace ∧
    CmdTag.encode2 ∉ (convert_to_gif convEnvFirstFits fsEmpty).trace ∧
    (∀ mpg me : SubprocessBehavior,
      convert_to_gif ⟨convEnvFirstFits.ffmpegAvailable, convEnvFirstFits.paletteGen,
        convEnvFirstFits.gifEncode, mpg, me⟩ fsEmpty
        = convert_to_gif convEnvFirstFits fsEmpty) :=
  fit_returns_first_satisfying_profile convEnvFirstFits fsEmpty 6291456
    rfl rfl rfl rfl (by decide)

/-- Claim C10: the second-pass recompression runs exactly when the
first-pass GIF strictly exceeds 8 MB (8388608 bytes): at exactly 8 MB
the first-pass GIF is returned as-is with no second-pass invocation.
The comparison at line 120 is written with the literal 8; the constant
MAX_SIZE_MB also equals 8, so the two coincide numerically. -/
theorem second_pass_trigger_strictly_over_8mb (env : ConvEnv) (fs : FS) (n : Nat)
    (hff : env.ffmpegAvailable = true)
    (hpr : env.paletteGen.raises = false)
    (hgr : env.gifEncode.raises = false)
    (hgo : env.gifEncode.output = some n) :
    ((CmdTag.palettegen2 ∈ (convert_to_gif env fs).trace) ↔ 8 * 1024 * 1024 < n) ∧
    (n = 8 * 1024 * 1024 →
      (convert_to_gif env fs).result = ScratchFile.gif ∧
      (convert_to_gif env fs).trace = [CmdTag.palettegen1, CmdTag.encode1]) ∧
    MAX_SIZE_MB = 8 := by
  obtain ⟨ff, ⟨pgr, pgo⟩, ⟨ger, geo⟩, ⟨mpgr, mpgo⟩, ⟨mer, meo⟩⟩ := env
  dsimp only at hff hpr hgr hgo
  subst hff hpr hgr hgo
  by_cases hov : 8 * 1024 * 1024 < n
  · have hovn : overEightMB n = true := by simpa [overEightMB] using hov
    refine ⟨?_, fun hn8 => absurd hov (by omega), rfl⟩
    cases mpgr <;> cases mer <;>
      [ (rcases meo with _ | k <;> rcases mpgo with _ | k2 <;> rcases pgo with _ | k3 <;>
          rcases hfsm : fs ScratchFile.medium with _ | j <;>
          simp [convert_to_gif, convertBody, applyRun, FS.set, FS.remove, hovn, hov, hfsm]);
        simp [convert_to_gif, convertBody, applyRun, FS.set, FS.remove, hovn, hov];
        simp [convert_to_gif, convertBody, applyRun, FS.set, FS.remove, hovn, hov];
        simp [convert_to_gif, convertBody, applyRun, FS.set, FS.remove, hovn, hov]]
  · have hovn : overEightMB n = false := by
      simp only [overEightMB, decide_eq_false_iff_not]
      exact hov
    refine ⟨?_, fun hn8 => ?_, rfl⟩
    · simp [convert_to_gif, convertBody, applyRun, FS.set, FS.remove, hovn, hov]
    · constructor <;>
        simp [convert_to_gif, convertBody, applyRun, FS.set, FS.remove, hovn]

/-- Witness for claim C10: a first-pass GIF of exactly 8388608 bytes. -/
theorem second_pass_trigger_strictly_over_8mb_witness :
    ((CmdTag.palettegen2 ∈ (convert_to_gif convEnvExactly8MB fsEmpty).trace)
      ↔ 8 * 1024 * 1024 < 8388608) ∧
    (8388608 = 8 * 1024 * 1024 →
      (convert_to_gif convEnvExactly8MB fsEmpty).result = ScratchFile.gif ∧
      (convert_to_gif convEnvExactly8MB fsEmpty).trace
        = [CmdTag.palettegen1, CmdTag.encode1]) ∧
    MAX_SIZE_MB = 8 :=
  second_pass_trigger_strictly_over_8mb convEnvExactly8MB fsEmpty 8388608 rfl rfl rfl rfl

/-- The try-body of convert_to_gif never touches the downloaded input
file, whichever branch or raise point is reached. -/
theorem convertBody_preserves_input (env : ConvEnv) (fs : FS) :
    (convertBody env fs).fs ScratchFile.input = fs ScratchFile.input := by
  simp only [convertBody]
  repeat' split
  all_goals simp [applyRun_ne, FS.remove_ne]

/-- Whenever the input file exists, the path the try-body returns refers
to a file existing in the resulting scratch directory. -/
theorem convertBody_result_exists (env : ConvEnv) (fs : FS)
    (hin : fs ScratchFile.input ≠ none) :
    (convertBody env fs).fs ((convertBody env fs).result) ≠ none := by
  simp only [convertBody]
  repeat' split
  all_goals simp_all [applyRun_ne, FS.remove_ne]

/-- Claim C9: convert_to_gif never propagates an exception (it is a
total function of its environment); whenever the try-body raises, the
broad except makes it return the original input path, and provided the
input file exists the caller always receives a path to an existing
file. -/
theorem convert_catches_conversion_errors (env : ConvEnv) (fs : FS) :
    ((convertBody env fs).raised = true →
      (convert_to_gif env fs).result = ScratchFile.input) ∧
    (fs ScratchFile.input ≠ none →
      (convert_to_gif env fs).fs ((convert_to_gif env fs).result) ≠ none) := by
  constructor
  · intro hr
    unfold convert_to_gif
    split
    · rfl
    · simp [hr]
  · intro hin
    unfold convert_to_gif
    split
    · simpa using hin
    · by_cases hr : (convertBody env fs).raised = true
      · simp only [hr, if_true]
        have hpres := convertBody_preserves_input env fs
        simp only [hpres]
        simpa using hin
      · simp only [Bool.not_eq_true] at hr
        simp only [hr, Bool.false_eq_true, if_false]
        exact convertBody_result_exists env fs hin

/-- Witness for claim C9: the first-pass encode raises, yet the function
returns the (existing) input path. -/
theorem convert_catches_conversion_errors_witness :
    (convertBody convEnvRaise fsWithInput).raised = true ∧
    (convert_to_gif convEnvRaise fsWithInput).result = ScratchFile.input ∧
    (convert_to_gif convEnvRaise fsWithInput).fs
      ((convert_to_gif convEnvRaise fsWithInput).result) ≠ none :=
  ⟨by decide,
   (convert_catches_conversion_errors convEnvRaise fsWithInput).1 (by decide),
   (convert_catches_conversion_errors convEnvRaise fsWithInput).2 (by decide)⟩

/-- Claim C7: when both endpoints fail, the job ends with the
user-visible all-services-down message and exactly one attempt was made
against each endpoint, in order, with no further attempt. -/
theorem both_endpoints_fail_terminal_message (env : HandleEnv) (fs0 : FS)
    (hk : env.kind ≠ MsgKind.other)
    (h1 : env.tg.replyProcessingRaises = false)
    (h2 : env.tg.downloadRaises = false)
    (h3 : env.tg.editConvertingRaises = false)
    (h4 : env.tg.editUploadingRaises = false)
    (h5 : env.tg.editFinalRaises = false)
    (hp : pyTruthy (upload_to_catbox env.primary) = false)
    (hs : pyTruthy (upload_to_0x0 env.secondary) = false) :
    (handle_gif env fs0).finalMsg = BotMessage.allDown ∧
    (handle_gif env fs0).attempts = [Endpoint.catbox, Endpoint.zeroX0] := by
  have hstep : uploadStep env.primary env.secondary
      = ⟨upload_to_0x0 env.secondary, [Endpoint.catbox, Endpoint.zeroX0]⟩ := by
    simp [uploadStep, hp]
  simp [handle_gif, hk, h1, h2, h3, h4, h5, hstep, hs]

/-- Witness for claim C7: the primary gets a 503, the secondary times
out. -/
theorem both_endpoints_fail_terminal_message_witness :
    (handle_gif handleEnvAllDown fsEmpty).finalMsg = BotMessage.allDown ∧
    (handle_gif handleEnvAllDown fsEmpty).attempts = [Endpoint.catbox, Endpoint.zeroX0] :=
  both_endpoints_fail_terminal_message handleEnvAllDown fsEmpty
    (by decide) rfl rfl rfl rfl rfl (by decide) (by decide)

/-- Claim C5 is violated by the code: two runs in which a superseded
intermediate file survives the job.  In the first, palettegen writes the
palette file and the first-pass encode then raises; the except-branch of
convert_to_gif returns the input path without deleting the palette, the
upload nevertheless succeeds, and the palette file is still in the
scratch directory after this fully completed job.  In the second, the
pipeline succeeds end to end but the final link reply raises; control
jumps to the handler at line 227, the unlink at line 225 never runs, and
the uploaded GIF artifact survives in the scratch directory. -/
theorem scratch_cleanup_invariant_violated :
    ((handle_gif handleEnvPaletteLeak fsEmpty).fs ScratchFile.palette = some 900 ∧
     (handle_gif handleEnvPaletteLeak fsEmpty).finalMsg = BotMessage.success "u") ∧
    ((handle_gif handleEnvGifLeak fsEmpty).fs ScratchFile.gif = some 1000 ∧
     (handle_gif handleEnvGifLeak fsEmpty).finalMsg = BotMessage.errorReply) := by
  decide
